import Mathlib

/-!
Verification of the publication logic of
`aws-git-backed-static-website-lambda.py`.

The program is a single Lambda handler.  Its publication core (lines 58-71)
is a tuple `types` of seven include/exclude filter strings with optional
content-type and cache-control values, and a loop that shells out one
`./aws s3 sync --acl public-read <filters> <tmpdir>/public s3://<bucket>/`
command per entry, in declaration order.

We embed:
* the seven rule entries as structured records (`types`), transcribed
  field by field from the string tuple at lines 58-66;
* the aws CLI include/exclude filter semantics (`applyFilters`): every file
  starts included, filters apply in command-line order, last match wins;
* the effect of one sync command on the destination store (`runSync`):
  the command uploads every file of the freshly generated source tree that
  passes the filter, setting that rule's content-type and cache-control
  (content-type `none` meaning the store/CLI infers it), and deletes
  destination-only files only when the `--delete` flag is passed — the
  command template at line 67 passes no `--delete` flag;
* the handler's control flow (lines 24-85) as an explicit
  state-and-exception model (`handler`), mirroring Python's
  try/except/finally semantics, including the facts that
  `os.popen(cmd).read()` discards the exit status of the spawned command
  (lines 56 and 71), that `job_id` and `tmpdir` are referenced in the
  `except`/`finally` blocks even on paths where they were never bound,
  and that the failure report at line 80 passes the caught exception
  instance as the string field `failureDetails.message`, so the boto3
  client's parameter validation raises before any callback is sent.
-/

/-- A file path, modelled as its list of characters. -/
abbrev FPath := List Char

/-- Direction of one aws CLI filter argument: `--exclude` or `--include`. -/
inductive FDir where
  | exc
  | inc
deriving DecidableEq, Repr

/-- One `--exclude PAT` or `--include PAT` argument of a sync command. -/
structure FilterRule where
  dir : FDir
  pat : String
deriving DecidableEq, Repr

/-- One entry of the `types` tuple (lines 58-66): the filter arguments in
command-line order, the optional `--content-type` value (`none` when the
entry passes no `--content-type`, so the store/CLI infers it), and the
`--cache-control` value. -/
structure SyncRule where
  filters : List FilterRule
  contentType : Option String
  cacheControl : String
deriving DecidableEq, Repr

/-- Metadata of one destination object after an upload: the content-type it
was uploaded with (`none` = inferred by the CLI/store) and its
cache-control value. -/
structure ObjMeta where
  contentType : Option String
  cacheControl : String
deriving DecidableEq, Repr

/-- The metadata a rule stamps on every object it uploads. -/
def metaOf (r : SyncRule) : ObjMeta :=
  { contentType := r.contentType, cacheControl := r.cacheControl }

/-- Matching of one aws CLI filter pattern against a path.  Every pattern
occurring in this program is either the bare wildcard `*` or a wildcard
followed by a literal suffix such as `*.js`; the CLI wildcard matches any
character sequence, so such a pattern matches exactly the paths ending in
that literal suffix (and `*` matches every path). -/
def patMatch (pat : String) (f : FPath) : Bool :=
  match pat.toList with
  | '*' :: suffixPart => suffixPart.isSuffixOf f
  | lit => lit == f

/-- aws CLI include/exclude filter evaluation: every file starts included;
the filter arguments are applied in command-line order and the last
matching filter decides (an exclude drops the file, an include keeps it). -/
def applyFilters (fs : List FilterRule) (f : FPath) : Bool :=
  fs.foldl (fun acc r => if patMatch r.pat f then r.dir == FDir.inc else acc) true

/-- The seven sync rule entries, transcribed in declaration order from the
`types` tuple at lines 58-66 of the source: filter arguments in their
command-line order, `--content-type` value when present, and
`--cache-control` value. -/
def types : List SyncRule :=
  [ { filters := [⟨.exc, "*"⟩, ⟨.inc, "*.js"⟩],
      contentType := some "application/javascript",
      cacheControl := "max-age=7776000" },
    { filters := [⟨.exc, "*"⟩, ⟨.inc, "*.css"⟩],
      contentType := some "text/css",
      cacheControl := "max-age=7776000" },
    { filters := [⟨.exc, "*"⟩, ⟨.inc, "*.html"⟩],
      contentType := some "text/html",
      cacheControl := "max-age=600" },
    { filters := [⟨.exc, "*"⟩, ⟨.inc, "*.xml"⟩],
      contentType := some "text/xml",
      cacheControl := "max-age=14400" },
    { filters := [⟨.exc, "*"⟩, ⟨.inc, "*.png"⟩, ⟨.inc, "*.jpg"⟩, ⟨.inc, "*.jpeg"⟩],
      contentType := none,
      cacheControl := "max-age=7776000" },
    { filters := [⟨.exc, "*"⟩, ⟨.inc, "*.otf"⟩, ⟨.inc, "*.eot"⟩, ⟨.inc, "*.svg"⟩,
                  ⟨.inc, "*.ttf"⟩, ⟨.inc, "*.woff"⟩, ⟨.inc, "*.woff2"⟩],
      contentType := none,
      cacheControl := "max-age=7776000" },
    { filters := [⟨.exc, "*.js"⟩, ⟨.exc, "*.css"⟩, ⟨.exc, "*.html"⟩, ⟨.exc, "*.xml"⟩,
                  ⟨.exc, "*.png"⟩, ⟨.exc, "*.jpg"⟩, ⟨.exc, "*.jpeg"⟩, ⟨.exc, "*.svg"⟩,
                  ⟨.exc, "*.otf"⟩, ⟨.exc, "*.eot"⟩, ⟨.exc, "*.ttf"⟩, ⟨.exc, "*.woff"⟩,
                  ⟨.exc, "*.woff2"⟩],
      contentType := none,
      cacheControl := "max-age=7200" } ]

/-- The sync command template at line 67 of the source, verbatim
(`\x7b`/`\x7d` are the literal brace characters of the Python format
string).  Note that it passes no `--delete` flag. -/
def cmd : String :=
  "./aws s3 sync --acl public-read \x7bexc_inc\x7d \x7bdir\x7d s3://\x7bbucket\x7d/"

/-- The destination bucket: a map from object key to the metadata of the
object stored under that key, `none` when no object is stored there. -/
def Store := FPath → Option ObjMeta

/-- Effect of one `aws s3 sync <filters> <srcdir> s3://<bucket>/` command on
the destination store.  The rendered tree is regenerated from scratch by the
generator on every run, so every source file inside the rule's filter scope
is uploaded (sync's size/timestamp comparison always sees a fresh local
file), stamping the rule's content-type and cache-control on the
destination object.  Destination objects inside the filter scope with no
matching source file are deleted only when the command carries the
`--delete` flag (`del`); the command issued by this program (`cmd`, line
67) carries no such flag, so the program's syncs run with `del = false`. -/
def runSync (del : Bool) (r : SyncRule) (src : List FPath) (store : Store) : Store :=
  fun p =>
    if applyFilters r.filters p then
      if src.contains p then some (metaOf r)
      else if del then none
      else store p
    else store p

/-- Running a list of sync commands sequentially, in declaration order
(the `for t in types` loop of lines 68-71). -/
def syncList (del : Bool) (rs : List SyncRule) (src : List FPath) (store : Store) : Store :=
  rs.foldl (fun st r => runSync del r src st) store

/-- The whole publication sequence of the program: the seven sync commands
of `types` in declaration order, each without `--delete`. -/
def syncAll (src : List FPath) (store : Store) : Store :=
  syncList false types src store

/-- The last rule of a rule list whose filter set matches the file. -/
def lastMatch (rs : List SyncRule) (f : FPath) : Option SyncRule :=
  (rs.filter fun r => applyFilters r.filters f).getLast?

/-- The metadata a file ends up with after the rules of a list run in
order over a source tree containing it, starting from default metadata
`d`: each matching rule overwrites, so the last matching rule wins and
`d` survives only when no rule matches. -/
def applyLast : List SyncRule → FPath → Option ObjMeta → Option ObjMeta
  | [], _, d => d
  | r :: rs, f, d =>
    if applyFilters r.filters f then applyLast rs f (some (metaOf r))
    else applyLast rs f d

/-- A destination store left over from an earlier deployment: it holds one
object, `stale.html`, with the metadata rule 3 once gave it. -/
def staleStore : Store :=
  fun p =>
    if p = "stale.html".toList then some ⟨some "text/html", "max-age=600"⟩
    else none

/-- The thirteen extension suffixes claimed by rules 1-6 (and excluded by
rule 7), as character lists, in the order the first six rules list them. -/
def exts13 : List FPath :=
  [".js".toList, ".css".toList, ".html".toList, ".xml".toList,
   ".png".toList, ".jpg".toList, ".jpeg".toList,
   ".otf".toList, ".eot".toList, ".svg".toList,
   ".ttf".toList, ".woff".toList, ".woff2".toList]

/-- How many of the seven rules match a file, as a function of the
thirteen extension tests alone: argument `i` is whether the file ends in
the `i`-th suffix of `exts13` (so `b1` = `.js`, `b2` = `.css`, `b3` =
`.html`, `b4` = `.xml`, `b5` = `.png`, `b6` = `.jpg`, `b7` = `.jpeg`,
`b8` = `.otf`, `b9` = `.eot`, `b10` = `.svg`, `b11` = `.ttf`, `b12` =
`.woff`, `b13` = `.woff2`).  The summands appear in the order the
`countP` fold of the rule list produces, rule 7 innermost; rule 7's
condition lists the extensions in its own command-line order. -/
def ruleCount (b1 b2 b3 b4 b5 b6 b7 b8 b9 b10 b11 b12 b13 : Bool) : Nat :=
  (if !(b1 || b2 || b3 || b4 || b5 || b6 || b7 || b10 || b8 || b9 || b11 || b12 || b13)
    then 1 else 0)
  + (if b8 || b9 || b10 || b11 || b12 || b13 then 1 else 0)
  + (if b5 || b6 || b7 then 1 else 0)
  + (if b4 then 1 else 0)
  + (if b3 then 1 else 0)
  + (if b2 then 1 else 0)
  + (if b1 then 1 else 0)

/-- The include-pattern suffixes of one rule: for each `--include *.<ext>`
argument, the suffix `.<ext>`. -/
def inclSuffixes (r : SyncRule) : List FPath :=
  (r.filters.filter fun fr => fr.dir == FDir.inc).filterMap fun fr =>
    match fr.pat.toList with
    | '*' :: s => some s
    | _ => none

/-- The exclude-pattern suffixes of one rule. -/
def exclSuffixes (r : SyncRule) : List FPath :=
  (r.filters.filter fun fr => fr.dir == FDir.exc).filterMap fun fr =>
    match fr.pat.toList with
    | '*' :: s => some s
    | _ => none

/-- The empty destination store. -/
def emptyStore : Store := fun _ => none

/-- The rendered tree of the scenario in the spec (section 8). -/
def scenarioFiles : List FPath :=
  ["app.js".toList, "style.css".toList, "index.html".toList, "sitemap.xml".toList,
   "logo.png".toList, "font.woff2".toList, "data.json".toList]

/-- The outside world of one handler invocation: which of the fallible
steps of the `try` block succeed, and the exit statuses of the external
processes the handler spawns.  Steps whose failure modes the claims never
exercise (`tempfile.mkdtemp`, `put_job_success_result`,
`shutil.rmtree` on an existing directory) are taken to succeed; the
failure report of line 80 needs no such assumption because it fails
deterministically (see `exceptBlock`). -/
structure Env where
  /-- line 27: `event['CodePipeline.job']['id']` is present (a missing key
  raises `KeyError` before `job_id` is bound). -/
  hasJobId : Bool
  /-- lines 28-45: the remaining job-descriptor lookups and the session /
  client construction succeed. -/
  descriptorOk : Bool
  /-- line 50: `s3.download_file` succeeds. -/
  downloadOk : Bool
  /-- lines 52-53: the archive opens and extracts as a ZIP file. -/
  unzipOk : Bool
  /-- line 56: exit status of the spawned `./hugo` process (0 = success). -/
  hugoExit : Nat
  /-- line 71: exit status of the k-th spawned `./aws s3 sync` command. -/
  syncExit : Nat → Nat

/-- Python exception kinds the handler can raise or observe. -/
inductive PyErr where
  /-- a missing dictionary key in the job descriptor (lines 27-40) -/
  | keyError
  /-- a failed S3 download (line 50) -/
  | clientError
  /-- a malformed ZIP archive (lines 52-53) -/
  | badZip
  /-- a reference to a name that was never bound (`job_id` at line 80 or
  `tmpdir` at line 83 on paths that raised before binding them) -/
  | nameError
  /-- botocore's client-side parameter validation rejecting the call at
  line 80, whose `failureDetails.message` is the caught exception
  instance `e` rather than the string the API shape requires -/
  | paramValidationError
deriving DecidableEq, Repr

/-- Observable effects of one handler invocation: which local names got
bound, which external actions ran, and how often each CodePipeline result
call was made. -/
structure St where
  /-- Whether `job_id` was bound (line 27 completed). -/
  jobIdBound : Bool
  /-- Whether `tmpdir` was bound (line 48 completed), i.e. the working directory
  was created. -/
  tmpdirBound : Bool
  /-- Whether `shutil.rmtree(tmpdir)` ran (line 83), i.e. the working directory
  was removed. -/
  tmpdirRemoved : Bool
  /-- the `./hugo` generator process was spawned (line 56). -/
  hugoRun : Bool
  /-- indices (0-6) of the sync commands spawned, in spawn order
  (line 71). -/
  syncsIssued : List Nat
  /-- number of `put_job_success_result` calls (line 74). -/
  successCalls : Nat
  /-- number of `put_job_failure_result` calls that completed, i.e.
  failure callbacks actually delivered to the pipeline (line 80). -/
  failureCalls : Nat
deriving DecidableEq, Repr

/-- The state at handler entry: nothing bound, nothing run. -/
def initSt : St :=
  { jobIdBound := false, tmpdirBound := false, tmpdirRemoved := false,
    hugoRun := false, syncsIssued := [], successCalls := 0, failureCalls := 0 }

/-- Model of Python `os.popen(c).read()` (lines 56 and 71): the spawned
command's standard output is returned; its exit status is never surfaced,
so a failing command cannot raise an exception here. -/
def popenRead (output : String) (exitStatus : Nat) : String :=
  let _ := exitStatus
  output

/-- The `try` block of the handler, lines 25-74: descriptor extraction,
working-directory creation, download, unzip, generator invocation via
`os.popen`, the seven sync commands via `os.popen`, and the success
report.  Returns the Python control outcome (normal completion or a raised
exception) together with the effects so far. -/
def tryBlock (env : Env) (s : St) : Except PyErr Unit × St :=
  -- line 27: job_id := event['CodePipeline.job']['id']
  if !env.hasJobId then (.error .keyError, s)
  else
    let s := { s with jobIdBound := true }
    -- lines 28-45: remaining descriptor lookups, session and client setup
    if !env.descriptorOk then (.error .keyError, s)
    else
      -- line 48: tmpdir := tempfile.mkdtemp()
      let s := { s with tmpdirBound := true }
      -- line 50: s3.download_file(from_bucket, from_key, tmp_file.name)
      if !env.downloadOk then (.error .clientError, s)
      -- lines 52-53: zipfile.ZipFile(...).extractall(tmpdir)
      else if !env.unzipOk then (.error .badZip, s)
      else
        -- lines 55-56: print(os.popen('./hugo ...').read()); the exit
        -- status of the generator is discarded, never examined
        let _hugoOut := popenRead "" env.hugoExit
        let s := { s with hugoRun := true }
        -- lines 68-71: for t in types: print(os.popen(exec_me).read());
        -- each sync command's exit status is discarded, never examined
        let s := (List.range types.length).foldl
          (fun s k =>
            let _syncOut := popenRead "" (env.syncExit k)
            { s with syncsIssued := s.syncsIssued ++ [k] }) s
        -- line 74: code_pipeline.put_job_success_result(jobId=job_id)
        (.ok (), { s with successCalls := s.successCalls + 1 })

/-- The `except Exception` block, lines 76-80: print the error, then call
`put_job_failure_result(jobId=job_id, failureDetails=...)`.  If the `try`
block raised before line 27 bound `job_id`, the reference to `job_id`
itself raises `NameError`.  Otherwise the call itself raises: line 80
passes the caught exception instance `e` as `failureDetails.message`,
which the CodePipeline API declares as a string, so botocore's client-side
parameter validation raises `ParamValidationError` before any request is
sent — the except block always raises, and no failure callback is ever
delivered to the pipeline. -/
def exceptBlock (s : St) : Except PyErr Unit × St :=
  if s.jobIdBound then (.error .paramValidationError, s)
  else (.error .nameError, s)

/-- The `finally` block, lines 82-83: `shutil.rmtree(tmpdir)`.  If the
`try` block raised before line 48 bound `tmpdir`, the reference to
`tmpdir` itself raises `NameError`. -/
def finallyBlock (s : St) : Except PyErr Unit × St :=
  if s.tmpdirBound then (.ok (), { s with tmpdirRemoved := true })
  else (.error .nameError, s)

/-- The handler, lines 24-85, with Python's try/except/finally semantics:
the `except` block runs only when the `try` block raised; the `finally`
block always runs; an exception raised by the `finally` block replaces any
pending exception; an exception raised by the `except` block propagates
after the `finally` block (when the latter completes normally); when no
exception is left pending, line 85 returns the string `"complete"`. -/
def handler (env : Env) : Except PyErr String × St :=
  let (rTry, s1) := tryBlock env initSt
  match rTry with
  | .ok _ =>
    let (rFin, s2) := finallyBlock s1
    match rFin with
    | .ok _ => (.ok "complete", s2)
    | .error e => (.error e, s2)
  | .error eTry =>
    let (rExc, s2) := exceptBlock s1
    let (rFin, s3) := finallyBlock s2
    match rFin with
    | .error eFin => (.error eFin, s3)
    | .ok _ =>
      match rExc with
      | .error eExc => (.error eExc, s3)
      | .ok _ =>
        let _ := eTry  -- the caught exception is reported, then dropped
        (.ok "complete", s3)

/-- An invocation on which every step succeeds. -/
def envOk : Env :=
  { hasJobId := true, descriptorOk := true, downloadOk := true, unzipOk := true,
    hugoExit := 0, syncExit := fun _ => 0 }

/-- An invocation whose event lacks the `CodePipeline.job` descriptor, so
reading the job id itself raises (line 27). -/
def envNoJobId : Env :=
  { hasJobId := false, descriptorOk := true, downloadOk := true, unzipOk := true,
    hugoExit := 0, syncExit := fun _ => 0 }

/-- An invocation on which the S3 download of the source archive fails. -/
def envDownloadFails : Env :=
  { hasJobId := true, descriptorOk := true, downloadOk := false, unzipOk := true,
    hugoExit := 0, syncExit := fun _ => 0 }

/-- An invocation on which the external generator exits with status 1. -/
def envHugoFails : Env :=
  { hasJobId := true, descriptorOk := true, downloadOk := true, unzipOk := true,
    hugoExit := 1, syncExit := fun _ => 0 }

/-- An invocation on which the fourth sync command (index 3) exits with
status 1 and all other steps succeed. -/
def envSync4Fails : Env :=
  { hasJobId := true, descriptorOk := true, downloadOk := true, unzipOk := true,
    hugoExit := 0, syncExit := fun k => if k = 3 then 1 else 0 }

/-! ### The fold characterization of the publication sequence -/

/-- Running the sync commands of a rule list in order, without `--delete`:
a file of the source tree ends up with the metadata of the last rule that
matches it (the store's previous entry surviving only when no rule
matches), and a path outside the source tree is never touched. -/
theorem syncList_apply (rs : List SyncRule) (src : List FPath) (store : Store) (f : FPath) :
    syncList false rs src store f =
      if src.contains f then applyLast rs f (store f) else store f := by
  induction rs generalizing store with
  | nil => cases hc : src.contains f <;> simp [syncList, applyLast, hc]
  | cons r rs ih =>
    show syncList false rs src (runSync false r src store) f = _
    rw [ih]
    by_cases hc : f ∈ src
    · have hcb : src.contains f = true := by simpa using hc
      cases hm : applyFilters r.filters f <;> simp [applyLast, runSync, hcb, hc, hm]
    · have hcb : src.contains f = false := by simpa using hc
      cases hm : applyFilters r.filters f <;> simp [applyLast, runSync, hcb, hc, hm]

/-- The cascade `applyLast` computes the metadata of the last matching rule. -/
theorem applyLast_lastMatch (rs : List SyncRule) (f : FPath) (d : Option ObjMeta) :
    applyLast rs f d =
      match lastMatch rs f with
      | some r => some (metaOf r)
      | none => d := by
  induction rs generalizing d with
  | nil => rfl
  | cons r rs ih =>
    cases hm : applyFilters r.filters f
    · rw [show applyLast (r :: rs) f d = applyLast rs f d by simp [applyLast, hm], ih]
      unfold lastMatch
      rw [List.filter_cons_of_neg (by simp [hm])]
    · rw [show applyLast (r :: rs) f d = applyLast rs f (some (metaOf r)) by
        simp [applyLast, hm], ih]
      unfold lastMatch
      rw [List.filter_cons_of_pos (by simp [hm])]
      cases hl : rs.filter (fun t => applyFilters t.filters f) with
      | nil => rfl
      | cons b l =>
        rw [List.getLast?_cons_cons]
        cases hg : (b :: l).getLast? with
        | some r2 => rfl
        | none => exact absurd (List.getLast?_eq_none_iff.mp hg) (by simp)

/-! ### What the filters of each rule match -/

/-- Folding the filter step over a run of `--include` arguments: the file
ends up included iff it already was or one of the patterns matches. -/
theorem foldl_filters_inc (ps : List String) (acc : Bool) (f : FPath) :
    List.foldl (fun acc (r : FilterRule) => if patMatch r.pat f then r.dir == FDir.inc else acc)
      acc (ps.map fun p => (⟨FDir.inc, p⟩ : FilterRule)) =
    if ps.any (fun p => patMatch p f) then true else acc := by
  induction ps generalizing acc with
  | nil => rfl
  | cons p ps ih =>
    simp only [List.map_cons, List.foldl_cons, List.any_cons]
    rw [ih]
    rcases Bool.eq_false_or_eq_true (patMatch p f) with h1 | h1 <;>
      rcases Bool.eq_false_or_eq_true (ps.any fun p => patMatch p f) with h2 | h2 <;>
        simp [h1, h2]

/-- Folding the filter step over a run of `--exclude` arguments: the file
ends up excluded iff one of the patterns matches, and keeps its previous
status otherwise. -/
theorem foldl_filters_exc (ps : List String) (acc : Bool) (f : FPath) :
    List.foldl (fun acc (r : FilterRule) => if patMatch r.pat f then r.dir == FDir.inc else acc)
      acc (ps.map fun p => (⟨FDir.exc, p⟩ : FilterRule)) =
    if ps.any (fun p => patMatch p f) then false else acc := by
  induction ps generalizing acc with
  | nil => rfl
  | cons p ps ih =>
    simp only [List.map_cons, List.foldl_cons, List.any_cons]
    rw [ih]
    rcases Bool.eq_false_or_eq_true (patMatch p f) with h1 | h1 <;>
      rcases Bool.eq_false_or_eq_true (ps.any fun p => patMatch p f) with h2 | h2 <;>
        simp [h1, h2, show (FDir.exc == FDir.inc) = false from rfl]

/-- The bare wildcard matches every path. -/
theorem patMatch_star (f : FPath) : patMatch "*" f = true := by
  show List.isSuffixOf [] f = true
  simp

/-- A leading `--exclude *` turns the initial everything-included state
into everything-excluded before the remaining filters run. -/
theorem applyFilters_cons_star (fs : List FilterRule) (f : FPath) :
    applyFilters (⟨FDir.exc, "*"⟩ :: fs) f =
      List.foldl (fun acc (r : FilterRule) => if patMatch r.pat f then r.dir == FDir.inc else acc)
        false fs := by
  show List.foldl _
      ((fun acc (r : FilterRule) => if patMatch r.pat f then r.dir == FDir.inc else acc)
        true ⟨FDir.exc, "*"⟩) fs = _
  congr 1
  show (if patMatch "*" f then FDir.exc == FDir.inc else true) = false
  rw [patMatch_star]
  rfl

theorem patMatch_js (f : FPath) : patMatch "*.js" f = ".js".toList.isSuffixOf f := rfl

theorem patMatch_css (f : FPath) : patMatch "*.css" f = ".css".toList.isSuffixOf f := rfl

theorem patMatch_html (f : FPath) : patMatch "*.html" f = ".html".toList.isSuffixOf f := rfl

theorem patMatch_xml (f : FPath) : patMatch "*.xml" f = ".xml".toList.isSuffixOf f := rfl

theorem patMatch_png (f : FPath) : patMatch "*.png" f = ".png".toList.isSuffixOf f := rfl

theorem patMatch_jpg (f : FPath) : patMatch "*.jpg" f = ".jpg".toList.isSuffixOf f := rfl

theorem patMatch_jpeg (f : FPath) : patMatch "*.jpeg" f = ".jpeg".toList.isSuffixOf f := rfl

theorem patMatch_otf (f : FPath) : patMatch "*.otf" f = ".otf".toList.isSuffixOf f := rfl

theorem patMatch_eot (f : FPath) : patMatch "*.eot" f = ".eot".toList.isSuffixOf f := rfl

theorem patMatch_svg (f : FPath) : patMatch "*.svg" f = ".svg".toList.isSuffixOf f := rfl

theorem patMatch_ttf (f : FPath) : patMatch "*.ttf" f = ".ttf".toList.isSuffixOf f := rfl

theorem patMatch_woff (f : FPath) : patMatch "*.woff" f = ".woff".toList.isSuffixOf f := rfl

theorem patMatch_woff2 (f : FPath) : patMatch "*.woff2" f = ".woff2".toList.isSuffixOf f := rfl

theorem ite_true_false (b : Bool) : (if b then true else false) = b := by
  cases b <;> rfl

theorem ite_false_true (b : Bool) : (if b then false else true) = !b := by
  cases b <;> rfl

/-- Rule 1 (`--exclude * --include *.js`) matches exactly the `.js` files. -/
theorem rule1_matches (f : FPath) :
    applyFilters [⟨.exc, "*"⟩, ⟨.inc, "*.js"⟩] f = ".js".toList.isSuffixOf f := by
  rw [applyFilters_cons_star,
    show ([⟨FDir.inc, "*.js"⟩] : List FilterRule)
      = (["*.js"].map fun p => (⟨FDir.inc, p⟩ : FilterRule)) from rfl,
    foldl_filters_inc, ite_true_false]
  simp only [List.any_cons, List.any_nil, patMatch_js, patMatch_css, patMatch_html,
    patMatch_xml, patMatch_png, patMatch_jpg, patMatch_jpeg, patMatch_otf, patMatch_eot,
    patMatch_svg, patMatch_ttf, patMatch_woff, patMatch_woff2, Bool.or_false,
    Bool.or_assoc]

/-- Rule 2 matches exactly the `.css` files. -/
theorem rule2_matches (f : FPath) :
    applyFilters [⟨.exc, "*"⟩, ⟨.inc, "*.css"⟩] f = ".css".toList.isSuffixOf f := by
  rw [applyFilters_cons_star,
    show ([⟨FDir.inc, "*.css"⟩] : List FilterRule)
      = (["*.css"].map fun p => (⟨FDir.inc, p⟩ : FilterRule)) from rfl,
    foldl_filters_inc, ite_true_false]
  simp only [List.any_cons, List.any_nil, patMatch_js, patMatch_css, patMatch_html,
    patMatch_xml, patMatch_png, patMatch_jpg, patMatch_jpeg, patMatch_otf, patMatch_eot,
    patMatch_svg, patMatch_ttf, patMatch_woff, patMatch_woff2, Bool.or_false,
    Bool.or_assoc]

/-- Rule 3 matches exactly the `.html` files. -/
theorem rule3_matches (f : FPath) :
    applyFilters [⟨.exc, "*"⟩, ⟨.inc, "*.html"⟩] f = ".html".toList.isSuffixOf f := by
  rw [applyFilters_cons_star,
    show ([⟨FDir.inc, "*.html"⟩] : List FilterRule)
      = (["*.html"].map fun p => (⟨FDir.inc, p⟩ : FilterRule)) from rfl,
    foldl_filters_inc, ite_true_false]
  simp only [List.any_cons, List.any_nil, patMatch_js, patMatch_css, patMatch_html,
    patMatch_xml, patMatch_png, patMatch_jpg, patMatch_jpeg, patMatch_otf, patMatch_eot,
    patMatch_svg, patMatch_ttf, patMatch_woff, patMatch_woff2, Bool.or_false,
    Bool.or_assoc]

/-- Rule 4 matches exactly the `.xml` files. -/
theorem rule4_matches (f : FPath) :
    applyFilters [⟨.exc, "*"⟩, ⟨.inc, "*.xml"⟩] f = ".xml".toList.isSuffixOf f := by
  rw [applyFilters_cons_star,
    show ([⟨FDir.inc, "*.xml"⟩] : List FilterRule)
      = (["*.xml"].map fun p => (⟨FDir.inc, p⟩ : FilterRule)) from rfl,
    foldl_filters_inc, ite_true_false]
  simp only [List.any_cons, List.any_nil, patMatch_js, patMatch_css, patMatch_html,
    patMatch_xml, patMatch_png, patMatch_jpg, patMatch_jpeg, patMatch_otf, patMatch_eot,
    patMatch_svg, patMatch_ttf, patMatch_woff, patMatch_woff2, Bool.or_false,
    Bool.or_assoc]

/-- Rule 5 matches exactly the `.png`, `.jpg` and `.jpeg` files. -/
theorem rule5_matches (f : FPath) :
    applyFilters [⟨.exc, "*"⟩, ⟨.inc, "*.png"⟩, ⟨.inc, "*.jpg"⟩, ⟨.inc, "*.jpeg"⟩] f
      = (".png".toList.isSuffixOf f || ".jpg".toList.isSuffixOf f
          || ".jpeg".toList.isSuffixOf f) := by
  rw [applyFilters_cons_star,
    show ([⟨FDir.inc, "*.png"⟩, ⟨FDir.inc, "*.jpg"⟩, ⟨FDir.inc, "*.jpeg"⟩] : List FilterRule)
      = (["*.png", "*.jpg", "*.jpeg"].map fun p => (⟨FDir.inc, p⟩ : FilterRule)) from rfl,
    foldl_filters_inc, ite_true_false]
  simp only [List.any_cons, List.any_nil, patMatch_js, patMatch_css, patMatch_html,
    patMatch_xml, patMatch_png, patMatch_jpg, patMatch_jpeg, patMatch_otf, patMatch_eot,
    patMatch_svg, patMatch_ttf, patMatch_woff, patMatch_woff2, Bool.or_false,
    Bool.or_assoc]

/-- Rule 6 matches exactly the `.otf`, `.eot`, `.svg`, `.ttf`, `.woff` and
`.woff2` files. -/
theorem rule6_matches (f : FPath) :
    applyFilters [⟨.exc, "*"⟩, ⟨.inc, "*.otf"⟩, ⟨.inc, "*.eot"⟩, ⟨.inc, "*.svg"⟩,
        ⟨.inc, "*.ttf"⟩, ⟨.inc, "*.woff"⟩, ⟨.inc, "*.woff2"⟩] f
      = (".otf".toList.isSuffixOf f || ".eot".toList.isSuffixOf f
          || ".svg".toList.isSuffixOf f || ".ttf".toList.isSuffixOf f
          || ".woff".toList.isSuffixOf f || ".woff2".toList.isSuffixOf f) := by
  rw [applyFilters_cons_star,
    show ([⟨FDir.inc, "*.otf"⟩, ⟨FDir.inc, "*.eot"⟩, ⟨FDir.inc, "*.svg"⟩, ⟨FDir.inc, "*.ttf"⟩,
          ⟨FDir.inc, "*.woff"⟩, ⟨FDir.inc, "*.woff2"⟩] : List FilterRule)
      = (["*.otf", "*.eot", "*.svg", "*.ttf", "*.woff", "*.woff2"].map
          fun p => (⟨FDir.inc, p⟩ : FilterRule)) from rfl,
    foldl_filters_inc, ite_true_false]
  simp only [List.any_cons, List.any_nil, patMatch_js, patMatch_css, patMatch_html,
    patMatch_xml, patMatch_png, patMatch_jpg, patMatch_jpeg, patMatch_otf, patMatch_eot,
    patMatch_svg, patMatch_ttf, patMatch_woff, patMatch_woff2, Bool.or_false,
    Bool.or_assoc]

/-- Rule 7 (thirteen `--exclude` arguments, no `--include`) matches exactly
the files with none of the thirteen excluded extensions. -/
theorem rule7_matches (f : FPath) :
    applyFilters [⟨.exc, "*.js"⟩, ⟨.exc, "*.css"⟩, ⟨.exc, "*.html"⟩, ⟨.exc, "*.xml"⟩,
        ⟨.exc, "*.png"⟩, ⟨.exc, "*.jpg"⟩, ⟨.exc, "*.jpeg"⟩, ⟨.exc, "*.svg"⟩,
        ⟨.exc, "*.otf"⟩, ⟨.exc, "*.eot"⟩, ⟨.exc, "*.ttf"⟩, ⟨.exc, "*.woff"⟩,
        ⟨.exc, "*.woff2"⟩] f
      = !(".js".toList.isSuffixOf f || ".css".toList.isSuffixOf f
          || ".html".toList.isSuffixOf f || ".xml".toList.isSuffixOf f
          || ".png".toList.isSuffixOf f || ".jpg".toList.isSuffixOf f
          || ".jpeg".toList.isSuffixOf f || ".svg".toList.isSuffixOf f
          || ".otf".toList.isSuffixOf f || ".eot".toList.isSuffixOf f
          || ".ttf".toList.isSuffixOf f || ".woff".toList.isSuffixOf f
          || ".woff2".toList.isSuffixOf f) := by
  rw [show ([⟨FDir.exc, "*.js"⟩, ⟨FDir.exc, "*.css"⟩, ⟨FDir.exc, "*.html"⟩, ⟨FDir.exc, "*.xml"⟩,
          ⟨FDir.exc, "*.png"⟩, ⟨FDir.exc, "*.jpg"⟩, ⟨FDir.exc, "*.jpeg"⟩, ⟨FDir.exc, "*.svg"⟩,
          ⟨FDir.exc, "*.otf"⟩, ⟨FDir.exc, "*.eot"⟩, ⟨FDir.exc, "*.ttf"⟩, ⟨FDir.exc, "*.woff"⟩,
          ⟨FDir.exc, "*.woff2"⟩] : List FilterRule)
      = (["*.js", "*.css", "*.html", "*.xml", "*.png", "*.jpg", "*.jpeg", "*.svg", "*.otf",
          "*.eot", "*.ttf", "*.woff", "*.woff2"].map
          fun p => (⟨FDir.exc, p⟩ : FilterRule)) from rfl]
  rw [show applyFilters
        ((["*.js", "*.css", "*.html", "*.xml", "*.png", "*.jpg", "*.jpeg", "*.svg", "*.otf",
          "*.eot", "*.ttf", "*.woff", "*.woff2"].map
          fun p => (⟨FDir.exc, p⟩ : FilterRule))) f
      = List.foldl
          (fun acc (r : FilterRule) => if patMatch r.pat f then r.dir == FDir.inc else acc) true
          ((["*.js", "*.css", "*.html", "*.xml", "*.png", "*.jpg", "*.jpeg", "*.svg", "*.otf",
            "*.eot", "*.ttf", "*.woff", "*.woff2"].map
            fun p => (⟨FDir.exc, p⟩ : FilterRule))) from rfl]
  rw [foldl_filters_exc, ite_false_true]
  congr 1
  simp only [List.any_cons, List.any_nil, patMatch_js, patMatch_css, patMatch_html,
    patMatch_xml, patMatch_png, patMatch_jpg, patMatch_jpeg, patMatch_otf, patMatch_eot,
    patMatch_svg, patMatch_ttf, patMatch_woff, patMatch_woff2, Bool.or_false,
    Bool.or_assoc]

/-! ### No file matches two of the seven rules -/

/-- None of the thirteen extension suffixes is a suffix of another. -/
theorem exts_nosuffix : ∀ e1 ∈ exts13, ∀ e2 ∈ exts13, e1 ≠ e2 → ¬ e1 <:+ e2 := by
  decide

/-- A file can end in at most one of the thirteen extension suffixes: two
of them ending the same path would make one a suffix of the other. -/
theorem suffix_unique (f : FPath) : ∀ e1 ∈ exts13, ∀ e2 ∈ exts13,
    e1.isSuffixOf f = true → e2.isSuffixOf f = true → e1 = e2 := by
  intro e1 h1 e2 h2 hs1 hs2
  by_contra hne
  rcases List.suffix_or_suffix_of_suffix
      (List.isSuffixOf_iff_suffix.mp hs1) (List.isSuffixOf_iff_suffix.mp hs2) with h | h
  · exact exts_nosuffix e1 h1 e2 h2 hne h
  · exact exts_nosuffix e2 h2 e1 h1 (Ne.symm hne) h

/-- At most one of the thirteen extension tests holds for any path. -/
theorem atoms_le_one (f : FPath) :
    (exts13.filter fun e => e.isSuffixOf f).length ≤ 1 := by
  rcases hfl : exts13.filter (fun e => e.isSuffixOf f) with _ | ⟨a, _ | ⟨b, t⟩⟩
  · rw [hfl]; simp
  · rw [hfl]; simp
  · exfalso
    have hnd : (exts13.filter fun e => e.isSuffixOf f).Nodup :=
      List.Nodup.filter _ (by decide)
    rw [hfl] at hnd
    have hne : a ≠ b := by
      intro h
      subst h
      exact (List.nodup_cons.mp hnd).1 (List.mem_cons_self a t)
    have ha : a ∈ exts13.filter (fun e => e.isSuffixOf f) := by
      rw [hfl]; exact List.mem_cons_self _ _
    have hb : b ∈ exts13.filter (fun e => e.isSuffixOf f) := by
      rw [hfl]; exact List.mem_cons_of_mem _ (List.mem_cons_self _ _)
    have ha' := List.mem_filter.mp ha
    have hb' := List.mem_filter.mp hb
    exact hne (suffix_unique f a ha'.1 b hb'.1 ha'.2 hb'.2)

/-- The thirteen extension tests, listed in the order of `exts13`, contain
at most one `true`. -/
theorem atoms_le_one_listed (f : FPath) :
    List.countP id
      [".js".toList.isSuffixOf f, ".css".toList.isSuffixOf f, ".html".toList.isSuffixOf f,
       ".xml".toList.isSuffixOf f, ".png".toList.isSuffixOf f, ".jpg".toList.isSuffixOf f,
       ".jpeg".toList.isSuffixOf f, ".otf".toList.isSuffixOf f, ".eot".toList.isSuffixOf f,
       ".svg".toList.isSuffixOf f, ".ttf".toList.isSuffixOf f, ".woff".toList.isSuffixOf f,
       ".woff2".toList.isSuffixOf f] ≤ 1 := by
  have h := atoms_le_one f
  rw [← List.countP_eq_length_filter] at h
  have heq : List.countP id
      [".js".toList.isSuffixOf f, ".css".toList.isSuffixOf f, ".html".toList.isSuffixOf f,
       ".xml".toList.isSuffixOf f, ".png".toList.isSuffixOf f, ".jpg".toList.isSuffixOf f,
       ".jpeg".toList.isSuffixOf f, ".otf".toList.isSuffixOf f, ".eot".toList.isSuffixOf f,
       ".svg".toList.isSuffixOf f, ".ttf".toList.isSuffixOf f, ".woff".toList.isSuffixOf f,
       ".woff2".toList.isSuffixOf f]
      = List.countP (fun e => e.isSuffixOf f) exts13 := by
    simp only [exts13, List.countP_cons, List.countP_nil, id_eq]
  rw [heq]
  exact h

/-- Whenever the thirteen boolean inputs contain at most one `true`, the
rule-count expression evaluates to exactly 1. -/
theorem ruleCount_one :
    ∀ b1 b2 b3 b4 b5 b6 b7 b8 b9 b10 b11 b12 b13 : Bool,
    List.countP id [b1, b2, b3, b4, b5, b6, b7, b8, b9, b10, b11, b12, b13] ≤ 1 →
    ruleCount b1 b2 b3 b4 b5 b6 b7 b8 b9 b10 b11 b12 b13 = 1 := by
  decide

/-- The number of rules matching a file equals the rule-count expression
applied to the file's thirteen extension tests. -/
theorem countP_eq_ruleCount (f : FPath) :
    (types.countP fun r => applyFilters r.filters f)
      = ruleCount (".js".toList.isSuffixOf f) (".css".toList.isSuffixOf f)
          (".html".toList.isSuffixOf f) (".xml".toList.isSuffixOf f)
          (".png".toList.isSuffixOf f) (".jpg".toList.isSuffixOf f)
          (".jpeg".toList.isSuffixOf f) (".otf".toList.isSuffixOf f)
          (".eot".toList.isSuffixOf f) (".svg".toList.isSuffixOf f)
          (".ttf".toList.isSuffixOf f) (".woff".toList.isSuffixOf f)
          (".woff2".toList.isSuffixOf f) := by
  simp only [types, List.countP_cons, List.countP_nil, ruleCount, Nat.zero_add,
    rule1_matches, rule2_matches, rule3_matches, rule4_matches, rule5_matches,
    rule6_matches, rule7_matches, Bool.or_assoc]

/-- Every path is matched by exactly one of the seven rules. -/
theorem matched_exactly_once (f : FPath) :
    (types.countP fun r => applyFilters r.filters f) = 1 := by
  rw [countP_eq_ruleCount f]
  exact ruleCount_one _ _ _ _ _ _ _ _ _ _ _ _ _ (atoms_le_one_listed f)

/-- The cascade `applyLast` is idempotent: re-running it on its own
result changes nothing. -/
theorem applyLast_idem (rs : List SyncRule) (f : FPath) (d : Option ObjMeta) :
    applyLast rs f (applyLast rs f d) = applyLast rs f d := by
  cases hl : lastMatch rs f with
  | some r =>
    rw [applyLast_lastMatch rs f (applyLast rs f d), hl]
    rw [applyLast_lastMatch rs f d, hl]
  | none =>
    rw [applyLast_lastMatch rs f (applyLast rs f d), hl]

/-! ### The claims -/

/-- C1: for every rendered tree, destination store and file of the tree,
after the seven sync operations of `types` run sequentially in declaration
order, the file's destination metadata (content-type and cache-control) is
that of the last rule whose filter set matches the file, because each sync
operation overwrites every matching file of the source tree. -/
theorem C1_final_metadata_is_last_matching_rule
    (src : List FPath) (store : Store) (f : FPath)
    (hf : src.contains f = true) (r : SyncRule)
    (hr : lastMatch types f = some r) :
    syncAll src store f = some (metaOf r) := by
  show syncList false types src store f = _
  rw [syncList_apply, hf, applyLast_lastMatch, hr]
  rfl

/-- C1 witness: in the scenario tree, `app.js` ends with the metadata of
rule 1, the last (and only) rule matching it. -/
theorem C1_witness :
    syncAll scenarioFiles emptyStore "app.js".toList
      = some (metaOf (types.get ⟨0, by decide⟩)) :=
  C1_final_metadata_is_last_matching_rule scenarioFiles emptyStore "app.js".toList
    (by decide) _ (by decide)

/-- C2: publishing the scenario tree (`app.js`, `style.css`, `index.html`,
`sitemap.xml`, `logo.png`, `font.woff2`, `data.json`) into an empty
destination yields exactly the expected per-file metadata: explicit
content-types for js/css/html/xml, store-inferred (`none`) for the image,
the font and the json, with cache lifetimes 7776000, 7776000, 600, 14400,
7776000, 7776000 and 7200 seconds respectively — `data.json` via the
catch-all rule 7, the last rule matching it. -/
theorem C2_scenario_metadata :
    syncAll scenarioFiles emptyStore "app.js".toList
        = some ⟨some "application/javascript", "max-age=7776000"⟩
    ∧ syncAll scenarioFiles emptyStore "style.css".toList
        = some ⟨some "text/css", "max-age=7776000"⟩
    ∧ syncAll scenarioFiles emptyStore "index.html".toList
        = some ⟨some "text/html", "max-age=600"⟩
    ∧ syncAll scenarioFiles emptyStore "sitemap.xml".toList
        = some ⟨some "text/xml", "max-age=14400"⟩
    ∧ syncAll scenarioFiles emptyStore "logo.png".toList
        = some ⟨none, "max-age=7776000"⟩
    ∧ syncAll scenarioFiles emptyStore "font.woff2".toList
        = some ⟨none, "max-age=7776000"⟩
    ∧ syncAll scenarioFiles emptyStore "data.json".toList
        = some ⟨none, "max-age=7200"⟩
    ∧ lastMatch types "data.json".toList = some (types.get ⟨6, by decide⟩) := by
  decide

/-- C3 counterexample: the destination object `stale.html` is absent from
the rendered tree and inside rule 3's filter scope, yet it survives the
whole publication sequence with its old metadata instead of being deleted;
the sync command template contains no `--delete` flag. -/
theorem C3_counterexample :
    scenarioFiles.contains "stale.html".toList = false
    ∧ applyFilters (types.get ⟨2, by decide⟩).filters "stale.html".toList = true
    ∧ syncAll scenarioFiles staleStore "stale.html".toList
        = some ⟨some "text/html", "max-age=600"⟩
    ∧ decide ("--delete".toList <:+: cmd.toList) = false := by
  decide

/-- C3 amended: the sync operations never delete anything — a destination
object whose key is not in the rendered tree keeps its previous state
across the whole publication sequence (the command passes no `--delete`,
so stale objects persist). -/
theorem C3_amended_stale_objects_persist
    (src : List FPath) (store : Store) (f : FPath)
    (h : src.contains f = false) :
    syncAll src store f = store f := by
  show syncList false types src store f = _
  rw [syncList_apply, h]
  rfl

/-- C3 amended witness: the stale object keeps its stored entry. -/
theorem C3_amended_witness :
    syncAll scenarioFiles staleStore "stale.html".toList
      = staleStore "stale.html".toList :=
  C3_amended_stale_objects_persist scenarioFiles staleStore "stale.html".toList
    (by decide)

/-- C4 evaluation at the failing input: when the fourth sync command (index
3) exits non-zero, the handler does not abandon the run — all seven sync
commands are spawned in order, the success callback is made once, and no
failure callback is made, because `os.popen(exec_me).read()` at line 71
discards the command's exit status. -/
theorem C4_sync_failure_not_detected :
    handler envSync4Fails
      = (Except.ok "complete",
         { jobIdBound := true, tmpdirBound := true, tmpdirRemoved := true,
           hugoRun := true, syncsIssued := [0, 1, 2, 3, 4, 5, 6],
           successCalls := 1, failureCalls := 0 }) := rfl

/-- C5 evaluation at the failing input: when the generator exits non-zero,
the handler does not fail — all seven sync commands are still spawned and
the success callback is made, because `os.popen('./hugo ...').read()` at
line 56 discards the generator's exit status and the output tree is never
checked. -/
theorem C5_generator_failure_not_detected :
    handler envHugoFails
      = (Except.ok "complete",
         { jobIdBound := true, tmpdirBound := true, tmpdirRemoved := true,
           hugoRun := true, syncsIssued := [0, 1, 2, 3, 4, 5, 6],
           successCalls := 1, failureCalls := 0 }) := rfl

/-- C6 evaluation at the failing input: when the event lacks the
`CodePipeline.job` descriptor, reading the job id raises before `job_id`
is bound, the except block's reference to `job_id` raises `NameError`, and
the handler makes zero callbacks (neither success nor failure) and itself
raises instead of returning. -/
theorem C6_descriptor_error_no_callback :
    handler envNoJobId
      = (Except.error PyErr.nameError,
         { jobIdBound := false, tmpdirBound := false, tmpdirRemoved := false,
           hugoRun := false, syncsIssued := [], successCalls := 0,
           failureCalls := 0 }) := rfl

/-- C7: on every invocation in which the working directory was created
(line 48 bound `tmpdir`), the `finally` block removes it before the
handler finishes, on success and on every failure path. -/
theorem C7_workdir_always_removed (env : Env)
    (h : (handler env).2.tmpdirBound = true) :
    (handler env).2.tmpdirRemoved = true := by
  rcases env with ⟨hji, dok, dl, uz, he, se⟩
  cases hji
  · exact Bool.noConfusion h
  · cases dok
    · exact Bool.noConfusion h
    · cases dl
      · rfl
      · cases uz
        · rfl
        · rfl

/-- C7 witness: on a run whose download fails, the working directory was
created and is removed. -/
theorem C7_witness : (handler envDownloadFails).2.tmpdirRemoved = true :=
  C7_workdir_always_removed envDownloadFails rfl

/-- C8: the publication sequence is idempotent — running the seven sync
operations twice against the same source tree leaves every destination
object with the same metadata as running them once. -/
theorem C8_publication_idempotent (src : List FPath) (store : Store) (f : FPath) :
    syncAll src (syncAll src store) f = syncAll src store f := by
  show syncList false types src (syncAll src store) f = _
  rw [syncList_apply]
  rcases Bool.eq_false_or_eq_true (src.contains f) with hc | hc
  · rw [hc]
    show applyLast types f (syncAll src store f) = syncAll src store f
    have h1 : syncAll src store f = applyLast types f (store f) := by
      show syncList false types src store f = _
      rw [syncList_apply, hc]
      rfl
    rw [h1, applyLast_idem]
  · rw [hc]; rfl

/-- C9: the include extension sets of rules 1-6 are pairwise disjoint; the
catch-all rule 7's exclude list is exactly the thirteen extensions js,
css, html, xml, png, jpg, jpeg, svg, otf, eot, ttf, woff, woff2, i.e. a
permutation of the union of the include sets of rules 1-6; consequently
every path is matched by exactly one of the seven sync operations. -/
theorem C9_rules_partition_files :
    (types.take 6).Pairwise
      (fun r1 r2 =>
        ((inclSuffixes r1).all fun e => !((inclSuffixes r2).contains e)) = true)
    ∧ exclSuffixes (types.get ⟨6, by decide⟩)
        = [".js".toList, ".css".toList, ".html".toList, ".xml".toList, ".png".toList,
           ".jpg".toList, ".jpeg".toList, ".svg".toList, ".otf".toList, ".eot".toList,
           ".ttf".toList, ".woff".toList, ".woff2".toList]
    ∧ (exclSuffixes (types.get ⟨6, by decide⟩)).Perm
        ((types.take 6).foldr (fun r acc => inclSuffixes r ++ acc) [])
    ∧ (∀ f : FPath, (types.countP fun r => applyFilters r.filters f) = 1) :=
  ⟨by decide, by decide, by decide, matched_exactly_once⟩

/-- C10 counterexample: a handled-failure run does not return normally at
all.  On a failed download, the except block runs with `job_id` bound, but
its `put_job_failure_result` call raises `ParamValidationError` (line 80
passes the exception object as the string `failureDetails.message`); the
finally block removes the working directory and the error then propagates,
so the handler raises instead of returning `complete`, and no failure
callback reaches the pipeline. -/
theorem C10_counterexample :
    handler envDownloadFails
      = (Except.error PyErr.paramValidationError,
         { jobIdBound := true, tmpdirBound := true, tmpdirRemoved := true,
           hugoRun := false, syncsIssued := [], successCalls := 0,
           failureCalls := 0 }) := rfl

/-- C10 amended: whenever the handler returns normally the returned value
is the string `complete` — but only the all-success path ever returns
normally: a normal return implies the job id was read, the descriptor
parsed, and the download and extraction succeeded, because every failure
path raises out of the except block (`ParamValidationError` from the
malformed failure report, or `NameError` when `job_id` is unbound) instead
of returning. -/
theorem C10_only_success_path_returns_complete (env : Env) (r : String)
    (h : (handler env).1 = Except.ok r) :
    r = "complete" ∧ env.hasJobId = true ∧ env.descriptorOk = true
      ∧ env.downloadOk = true ∧ env.unzipOk = true := by
  rcases env with ⟨hji, dok, dl, uz, he, se⟩
  cases hji
  · exact Except.noConfusion h
  · cases dok
    · exact Except.noConfusion h
    · cases dl
      · exact Except.noConfusion h
      · cases uz
        · exact Except.noConfusion h
        · exact ⟨(Except.ok.inj h).symm, rfl, rfl, rfl, rfl⟩

/-- C10 witness: the all-success run returns normally with `complete`. -/
theorem C10_witness :
    "complete" = "complete" ∧ envOk.hasJobId = true ∧ envOk.descriptorOk = true
      ∧ envOk.downloadOk = true ∧ envOk.unzipOk = true :=
  C10_only_success_path_returns_complete envOk "complete" rfl
